import Mathlib

/-!
Verification of the sandbox lifecycle engine of the blue-lotus sandbox
repository.  The definitions below are a shallow embedding of the C++
sources: `SandboxManager` (core/SandboxManager.h), the syscall wrappers
(utils/Syscalls.h, Syscalls.cpp) and the built-in modules Namespaces,
Cgroups, RootFS, Mounts, Seccomp, Caps and AIAgent.  Side-effecting code
is modelled as a pure function from the configuration (and a filesystem
oracle where the code inspects the filesystem) to the list of kernel-facing
events it performs, in program order.
-/

namespace SandboxModel

/-! ### Kernel constants (from linux headers used by the sources) -/

def MS_RDONLY : Nat := 1
def MS_NOSUID : Nat := 2
def MS_NODEV : Nat := 4
def MS_NOEXEC : Nat := 8
def MS_REMOUNT : Nat := 32
def MS_BIND : Nat := 4096
def MS_REC : Nat := 16384
def MS_PRIVATE : Nat := 262144
def MS_STRICTATIME : Nat := 16777216
def MNT_DETACH : Nat := 2

def PR_SET_NAME : Nat := 15
def PR_SET_SECCOMP : Nat := 22
def PR_SET_NO_NEW_PRIVS : Nat := 38
def SECCOMP_MODE_FILTER : Nat := 2

/-- seccomp return actions, the values of the anonymous enum in Seccomp.h
(SECCOMP_RET_* of linux/seccomp.h). -/
def SECCOMP_RET_KILL : Nat := 0x00000000
def SECCOMP_RET_TRAP : Nat := 0x00030000
def SECCOMP_RET_ERRNO : Nat := 0x00050000
def SECCOMP_RET_TRACE : Nat := 0x7ff00000
def SECCOMP_RET_LOG : Nat := 0x7ffc0000
def SECCOMP_RET_ALLOW : Nat := 0x7fff0000

/-! ### Configuration data model (core/ConfigParser.h) -/

structure UIDMap where
  host_uid : Int
  container_uid : Int
  count : Int
  deriving Repr, DecidableEq

structure GIDMap where
  host_gid : Int
  container_gid : Int
  count : Int
  deriving Repr, DecidableEq

structure BindMount where
  source : String
  target : String
  read_only : Bool
  deriving Repr, DecidableEq

structure SandboxConfig where
  name : String
  hostname : String
  rootfs_path : String
  command : List String
  auto_bootstrap : Bool
  distro : String
  release : String
  deriving Repr, DecidableEq

structure ResourcesConfig where
  memory_mb : Int
  cpu_quota_percent : Int
  max_pids : Int
  enable_swap : Bool
  deriving Repr, DecidableEq

structure IsolationConfig where
  namespaces : List String
  uid_map : UIDMap
  gid_map : GIDMap
  deriving Repr, DecidableEq

structure SecurityConfig where
  capabilities : List String
  seccomp_policy : String
  seccomp_profile_path : String
  deriving Repr, DecidableEq

structure MountsConfig where
  bind_mounts : List BindMount
  deriving Repr, DecidableEq

structure SandboxConfiguration where
  sandbox : SandboxConfig
  resources : ResourcesConfig
  isolation : IsolationConfig
  security : SecurityConfig
  mounts : MountsConfig
  deriving Repr, DecidableEq

/-- ConfigParser::createDefaultConfig (ConfigParser.cpp), the configuration
used when no config file is given (ai_module and logging fields are consumed
only by external collaborators and are not part of the model). -/
def createDefaultConfig : SandboxConfiguration :=
  { sandbox :=
      { name := "sandbox-default"
        hostname := "sandbox-container"
        rootfs_path := "/var/lib/sandbox/rootfs/ubuntu_focal"
        command := ["/bin/bash"]
        auto_bootstrap := false
        distro := "ubuntu"
        release := "focal" }
    resources :=
      { memory_mb := 512
        cpu_quota_percent := 50
        max_pids := 100
        enable_swap := false }
    isolation :=
      { namespaces := ["pid", "net", "ipc", "uts", "mount", "user"]
        uid_map := { host_uid := 1000, container_uid := 0, count := 1 }
        gid_map := { host_gid := 1000, container_gid := 0, count := 1 } }
    security :=
      { capabilities := []
        seccomp_policy := "default"
        seccomp_profile_path := "" }
    mounts :=
      { bind_mounts := [{ source := "/tmp", target := "/tmp", read_only := false }] } }

/-! ### Events

One constructor per kernel-facing operation the engine or a module performs.
`forkChild` and `cloneChild` distinguish how the child process is created;
`cloneChild` is emitted by Syscall::cloneWithFlags, which exists in the
syscall layer but is modelled separately so that its absence from the run
trace is expressible. -/

inductive Event where
  | initHook (moduleName : String)
  | prepareHook (moduleName : String)
  | applyHook (moduleName : String)
  | cleanupHook (moduleName : String)
  | pipeCreate
  | forkChild
  | cloneChild (flags : Nat)
  | closePipeRead
  | closePipeWrite
  | dup2Call (oldfd newfd : Nat)
  | prctlName (title : String)
  | prctlCall (option : Nat) (arg : Nat)
  | mountCall (source target fstype : String) (flags : Nat)
  | umountCall (path : String) (flags : Nat)
  | pivotRootCall (newRoot putOld : String)
  | chdirCall (path : String)
  | mkdirRec (path : String)
  | writeFileCall (path content : String)
  | sethostnameCall (hostname : String)
  | capSetProcCall (caps : List Nat)
  | capAmbientCall (cap : Nat)
  | waitpidCall
  | execveCall (argv : List String)
  deriving Repr, DecidableEq

/-! ### Caps module (modules/security/Caps.cpp) -/

/-- Caps::capabilityFromName: the fixed translation table from capability
names to numbers; -1 for unknown names. -/
def capabilityFromName (name : String) : Int :=
  if name = "CAP_CHOWN" then 0
  else if name = "CAP_DAC_OVERRIDE" then 1
  else if name = "CAP_DAC_READ_SEARCH" then 2
  else if name = "CAP_FOWNER" then 3
  else if name = "CAP_FSETID" then 4
  else if name = "CAP_KILL" then 5
  else if name = "CAP_SETGID" then 6
  else if name = "CAP_SETUID" then 7
  else if name = "CAP_SETPCAP" then 8
  else if name = "CAP_LINUX_IMMUTABLE" then 9
  else if name = "CAP_NET_BIND_SERVICE" then 10
  else if name = "CAP_NET_BROADCAST" then 11
  else if name = "CAP_NET_ADMIN" then 12
  else if name = "CAP_NET_RAW" then 13
  else if name = "CAP_IPC_LOCK" then 14
  else if name = "CAP_IPC_OWNER" then 15
  else if name = "CAP_SYS_MODULE" then 16
  else if name = "CAP_SYS_RAWIO" then 17
  else if name = "CAP_SYS_CHROOT" then 18
  else if name = "CAP_SYS_PTRACE" then 19
  else if name = "CAP_SYS_PACCT" then 20
  else if name = "CAP_SYS_ADMIN" then 21
  else if name = "CAP_SYS_BOOT" then 22
  else if name = "CAP_SYS_NICE" then 23
  else if name = "CAP_SYS_RESOURCE" then 24
  else if name = "CAP_SYS_TIME" then 25
  else if name = "CAP_SYS_TTY_CONFIG" then 26
  else if name = "CAP_MKNOD" then 27
  else if name = "CAP_LEASE" then 28
  else if name = "CAP_AUDIT_WRITE" then 29
  else if name = "CAP_AUDIT_CONTROL" then 30
  else if name = "CAP_SETFCAP" then 31
  else -1

/-- the capList accumulated by Caps::applyChild: resolved numbers of the
configured capability names, unknown names skipped with a warning. -/
def capsKeepList (cfg : SandboxConfiguration) : List Nat :=
  cfg.security.capabilities.foldr
    (fun n acc =>
      let c := capabilityFromName n
      if c ≥ 0 then c.toNat :: acc else acc) []

/-- Caps::applyChild on the success path: clear, set the kept list in the
EFFECTIVE, PERMITTED and INHERITABLE masks, cap_set_proc, then an ambient
add per kept capability. -/
def capsApplyChild (cfg : SandboxConfiguration) : List Event :=
  Event.capSetProcCall (capsKeepList cfg) ::
    (capsKeepList cfg).map Event.capAmbientCall

/-! ### Namespaces module (modules/isolation/Namespaces.cpp) -/

/-- Namespaces::hasNamespace. -/
def hasNamespace (nsName : String) (cfg : SandboxConfiguration) : Bool :=
  cfg.isolation.namespaces.contains nsName

/-- Namespaces::getNamespaceFlag: clone flag values from sched.h. -/
def getNamespaceFlag (nsName : String) : Nat :=
  if nsName = "pid" then 0x20000000
  else if nsName = "net" then 0x40000000
  else if nsName = "ipc" then 0x08000000
  else if nsName = "uts" then 0x04000000
  else if nsName = "mount" then 0x00020000
  else if nsName = "user" then 0x10000000
  else 0

/-- Namespaces::applyUserNamespace on the success path: setgroups deny,
then the uid map line, then the gid map line. -/
def applyUserNamespace (cfg : SandboxConfiguration) : List Event :=
  [Event.writeFileCall "/proc/self/setgroups" "deny",
   Event.writeFileCall "/proc/self/uid_map"
     (toString cfg.isolation.uid_map.container_uid ++ " " ++
      toString cfg.isolation.uid_map.host_uid ++ " " ++
      toString cfg.isolation.uid_map.count),
   Event.writeFileCall "/proc/self/gid_map"
     (toString cfg.isolation.gid_map.container_gid ++ " " ++
      toString cfg.isolation.gid_map.host_gid ++ " " ++
      toString cfg.isolation.gid_map.count)]

/-- Namespaces::applyChild on the success path: user-namespace maps when
requested, /proc when pid is requested, /sys when mount is requested, and
the hostname when uts is requested. -/
def namespacesApplyChild (cfg : SandboxConfiguration) : List Event :=
  (if hasNamespace "user" cfg then applyUserNamespace cfg else []) ++
  (if hasNamespace "pid" cfg then
    [Event.mountCall "proc" "/proc" "proc" (MS_NOSUID + MS_NOEXEC + MS_NODEV)]
   else []) ++
  (if hasNamespace "mount" cfg then
    [Event.mountCall "sysfs" "/sys" "sysfs" (MS_NOSUID + MS_NOEXEC + MS_NODEV)]
   else []) ++
  (if hasNamespace "uts" cfg then [Event.sethostnameCall cfg.sandbox.hostname] else [])

/-! ### RootFS module (modules/filesystem/RootFS.cpp) -/

/-- the requiredDirs list of RootFS::setupMounts. -/
def rootfsRequiredDirs : List String :=
  ["/bin", "/etc", "/home", "/lib", "/lib64", "/media",
   "/mnt", "/opt", "/root", "/sbin", "/srv", "/tmp",
   "/usr", "/var"]

/-- RootFS::setupMounts: mkdirRecursive on every required directory that is
not already a directory; `isDir` is the filesystem oracle for
Syscall::isDirectory. -/
def rootfsSetupMounts (isDir : String → Bool) (rootPath : String) : List Event :=
  (rootfsRequiredDirs.filter (fun d => !isDir (rootPath ++ d))).map
    (fun d => Event.mkdirRec (rootPath ++ d))

/-- RootFS::doPivotRoot: bind-mount newRoot onto itself (MS_BIND|MS_REC),
pivot_root, chdir to the new root. -/
def doPivotRoot (newRoot putOld : String) : List Event :=
  [Event.mountCall newRoot newRoot "" (MS_BIND + MS_REC),
   Event.pivotRootCall newRoot putOld,
   Event.chdirCall "/"]

/-- RootFS::applyChild on the success path.  oldRootPath_ is "/oldroot"
(set in RootFS::initialize); after the pivot the old root is detached at
"/oldroot" and proc, sysfs and tmpfs are mounted. -/
def rootfsApplyChild (isDir : String → Bool) (cfg : SandboxConfiguration) : List Event :=
  rootfsSetupMounts isDir cfg.sandbox.rootfs_path ++
  [Event.mkdirRec (cfg.sandbox.rootfs_path ++ "/oldroot")] ++
  doPivotRoot cfg.sandbox.rootfs_path (cfg.sandbox.rootfs_path ++ "/oldroot") ++
  [Event.umountCall "/oldroot" MNT_DETACH,
   Event.mountCall "proc" "/proc" "proc" (MS_NOSUID + MS_NOEXEC + MS_NODEV),
   Event.mountCall "sysfs" "/sys" "sysfs" (MS_NOSUID + MS_NOEXEC + MS_NODEV),
   Event.mountCall "tmpfs" "/dev" "tmpfs" (MS_NOSUID + MS_STRICTATIME)]

/-! ### Mounts module (Mounts.cpp, src/unnamed sources) -/

/-- Mounts::ensureMountTarget: nothing for the empty path or "/", otherwise
mkdirRecursive on the target. -/
def ensureMountTarget (target : String) : List Event :=
  if target = "" ∨ target = "/" then [] else [Event.mkdirRec target]

/-- Mounts::applyBindMount on the success path: create a missing source,
ensure the target, bind mount, and remount read-only when requested;
`fsExists` is the oracle for Syscall::exists. -/
def applyBindMount (fsExists : String → Bool) (bm : BindMount) : List Event :=
  (if !fsExists bm.source then [Event.mkdirRec bm.source] else []) ++
  ensureMountTarget bm.target ++
  [Event.mountCall bm.source bm.target "bind" MS_BIND] ++
  (if bm.read_only then
    [Event.mountCall "" bm.target "bind" (MS_BIND + MS_REMOUNT + MS_RDONLY)]
   else [])

/-- Mounts::applyChild on the success path: every configured bind mount in
order. -/
def mountsApplyChild (fsExists : String → Bool) (cfg : SandboxConfiguration) : List Event :=
  (cfg.mounts.bind_mounts.map (applyBindMount fsExists)).flatten

/-! ### Seccomp module (Seccomp.cpp, src/unnamed sources) -/

structure SeccompModule where
  enabled : Bool
  defaultAction : Nat
  deriving Repr, DecidableEq

/-- Seccomp::initialize: enabled_ is set from the emptiness of the policy
selector and the profile path; the default action starts at ACTION_ERRNO
(the constructor value) and is changed only by the four recognised
selectors.  Profile loading and the BPF compilation of
generateDefaultPolicy have no kernel-facing effect modelled here. -/
def seccompInitModule (cfg : SandboxConfiguration) : SeccompModule :=
  let enabled := !(cfg.security.seccomp_policy = "") ||
                 !(cfg.security.seccomp_profile_path = "")
  if !enabled then { enabled := false, defaultAction := SECCOMP_RET_ERRNO }
  else
    let act :=
      if cfg.security.seccomp_policy = "default" then SECCOMP_RET_ERRNO
      else if cfg.security.seccomp_policy = "strict" then SECCOMP_RET_KILL
      else if cfg.security.seccomp_policy = "log" then SECCOMP_RET_LOG
      else if cfg.security.seccomp_policy = "allow" then SECCOMP_RET_ALLOW
      else SECCOMP_RET_ERRNO
    { enabled := true, defaultAction := act }

/-- Seccomp::applyChild: nothing when disabled; otherwise the filter is
installed with prctl(PR_SET_SECCOMP, SECCOMP_MODE_FILTER, blob).  No
PR_SET_NO_NEW_PRIVS prctl appears anywhere in the sources. -/
def seccompApplyChild (cfg : SandboxConfiguration) : List Event :=
  if !(seccompInitModule cfg).enabled then []
  else [Event.prctlCall PR_SET_SECCOMP SECCOMP_MODE_FILTER]

/-! ### Cgroups module (modules/isolation/Cgroups.cpp) -/

/-- Cgroups::setMemoryLimits as the ordered list of cgroup interface writes
(setting, value): memory.max always, memory.swap.max "0" only when
enable_swap is true (the `if (config.resources.enable_swap)` guard at
Cgroups.cpp line 158), then memory.high. -/
def setMemoryLimits (cfg : SandboxConfiguration) : List (String × String) :=
  let memoryBytes : Int := cfg.resources.memory_mb * 1024 * 1024
  [("memory.max", toString memoryBytes)] ++
  (if cfg.resources.enable_swap then [("memory.swap.max", "0")] else []) ++
  [("memory.high", toString (memoryBytes * 8 / 10))]

/-- Cgroups::setCpuLimits as cgroup interface writes. -/
def setCpuLimits (cfg : SandboxConfiguration) : List (String × String) :=
  let quota : Int := cfg.resources.cpu_quota_percent * 1000
  [("cpu.max", toString quota ++ " 100000")]

/-- Cgroups::setPidLimits as cgroup interface writes. -/
def setPidLimits (cfg : SandboxConfiguration) : List (String × String) :=
  if cfg.resources.max_pids > 0 then
    [("pids.max", toString cfg.resources.max_pids)]
  else []

/-- Cgroups::createCgroup: the ordered interface writes after the cgroup
directory is created. -/
def createCgroupWrites (cfg : SandboxConfiguration) : List (String × String) :=
  setMemoryLimits cfg ++ setCpuLimits cfg ++ setPidLimits cfg

/-! ### Engine (core/SandboxManager.h)

The module registry modules_ is a std::map keyed by getName(), so iteration
is in lexicographic name order regardless of registration order.  A module
is the pair of its name and its declared dependencies; the per-module hook
behaviour is dispatched by name below. -/

structure ModuleInfo where
  name : String
  deps : List String
  deriving Repr, DecidableEq

/-- the seven modules registered by registerDefaultModules (main.cpp), in
std::map iteration order (sorted by getName()).  Dependencies from each
module's getDependencies(): only mounts declares any, namely rootfs. -/
def defaultModules : List ModuleInfo :=
  [{ name := "ai-agent", deps := [] },
   { name := "caps", deps := [] },
   { name := "cgroups", deps := [] },
   { name := "mounts", deps := ["rootfs"] },
   { name := "namespaces", deps := [] },
   { name := "rootfs", deps := [] },
   { name := "seccomp", deps := [] }]

structure ResolveState where
  visited : List String
  temp : List String
  order : List String
  deriving Repr, DecidableEq

/-- the dfs lambda of SandboxManager::resolveDependencies: a temp mark or a
visited mark returns early, a missing module returns early, otherwise the
dependencies are visited first and the module is appended to the order.
Recursion depth is bounded by the fuel (the caller passes more fuel than
there are modules; temp marks stop any cycle). -/
def dfsResolve (modules : List ModuleInfo) : Nat → String → ResolveState → ResolveState
  | 0, _, st => st
  | Nat.succ fuel, name, st =>
    if st.temp.contains name then st
    else if st.visited.contains name then st
    else
      match modules.find? (fun m => m.name = name) with
      | none => st
      | some m =>
        let st1 : ResolveState := { st with temp := name :: st.temp }
        let st2 := m.deps.foldl (fun s d => dfsResolve modules fuel d s) st1
        { st2 with
            temp := st2.temp.erase name
            visited := name :: st2.visited
            order := st2.order ++ [name] }

/-- SandboxManager::resolveDependencies: dfs from every not-yet-visited
module in registry (map) order; the result is executionOrder_ as a list of
module names. -/
def resolveDependencies (modules : List ModuleInfo) : List String :=
  (modules.foldl
    (fun (st : ResolveState) (m : ModuleInfo) =>
      if st.visited.contains m.name then st
      else dfsResolve modules (modules.length + 1) m.name st)
    { visited := [], temp := [], order := [] }).order

/-- per-module applyChild dispatch by module name (AIAgent::applyChild and
Cgroups::applyChild perform nothing in the child). -/
def applyChildEvents (isDir fsExists : String → Bool) (cfg : SandboxConfiguration)
    (moduleName : String) : List Event :=
  if moduleName = "namespaces" then namespacesApplyChild cfg
  else if moduleName = "rootfs" then rootfsApplyChild isDir cfg
  else if moduleName = "mounts" then mountsApplyChild fsExists cfg
  else if moduleName = "seccomp" then seccompApplyChild cfg
  else if moduleName = "caps" then capsApplyChild cfg
  else []

/-- Modelled from the spec: the final execute step of the child path.
SandboxManager::executeChild ends in `return execute(config_);` but no
function named execute is defined at namespace scope anywhere in the
sources (each module's execute hook returns 0 and none runs the command);
the spec, section 4.9 child path step d, states the child finishes with
execve(command[0], command, envp). -/
def specExecuteStep (cfg : SandboxConfiguration) : List Event :=
  [Event.execveCall cfg.sandbox.command]

/-- SandboxManager::executeChild on the success path: applyChild of every
module of executionOrder_ in forward order (each preceded by its hook
marker), then the execute step. -/
def executeChildEvents (isDir fsExists : String → Bool) (cfg : SandboxConfiguration)
    (order : List String) : List Event :=
  (order.map (fun n => Event.applyHook n :: applyChildEvents isDir fsExists cfg n)).flatten
    ++ specExecuteStep cfg

/-- the child branch of SandboxManager::run: close the pipe read end, set
the process title, then executeChild. -/
def childTrace (isDir fsExists : String → Bool) (cfg : SandboxConfiguration)
    (modules : List ModuleInfo) : List Event :=
  Event.closePipeRead :: Event.prctlName cfg.sandbox.name ::
    executeChildEvents isDir fsExists cfg (resolveDependencies modules)

/-- the child trace of a run with the default modules over a filesystem in
which every inspected path already exists. -/
def defaultChildTrace : List Event :=
  childTrace (fun _ => true) (fun _ => true) createDefaultConfig defaultModules

/-- SandboxManager::initializeModules: initialize every module of
executionOrder_ in forward order, stopping at the first failure; `initOk`
gives each module's initialize result.  Returns the events performed and
whether all modules initialized. -/
def initializeModulesEvents (initOk : String → Bool) : List String → List Event × Bool
  | [] => ([], true)
  | n :: rest =>
    if initOk n then
      let r := initializeModulesEvents initOk rest
      (Event.initHook n :: r.1, r.2)
    else ([Event.initHook n], false)

/-- SandboxManager::cleanupModules: cleanup of every module of
executionOrder_ in reverse order (all modules are attempted). -/
def cleanupModulesEvents (order : List String) : List Event :=
  order.reverse.map Event.cleanupHook

/-- the parent-side trace of SandboxManager::run: resolveDependencies,
initializeModules (an initialize failure returns at once, before the pipe
and the fork and without any cleanup), pipe creation, fork, prepareChild of
every module, waitpid, then cleanupModules in reverse order.  The child is
created by fork() (SandboxManager.h line 316); Syscall::cloneWithFlags is
never called by the engine, so no cloneChild event is ever emitted. -/
def runTrace (modules : List ModuleInfo) (initOk : String → Bool) : List Event :=
  let order := resolveDependencies modules
  let r := initializeModulesEvents initOk order
  if !r.2 then r.1
  else
    r.1 ++ [Event.pipeCreate, Event.forkChild, Event.closePipeWrite] ++
    order.map Event.prepareHook ++ [Event.waitpidCall] ++
    cleanupModulesEvents order

/-! ### Wait status interpretation (SandboxManager::run lines 363-372)

The glibc macros over the raw waitpid status: WIFEXITED is
(status & 0x7f) == 0, WEXITSTATUS is (status & 0xff00) >> 8, WTERMSIG is
status & 0x7f, and WIFSIGNALED is ((signed char)(((status & 0x7f)+1)>>1))>0,
which holds exactly when status & 0x7f lies in 1..126. -/

def WIFEXITED (status : Nat) : Bool := decide (status % 128 = 0)

def WEXITSTATUS (status : Nat) : Nat := status / 256 % 256

def WTERMSIG (status : Nat) : Nat := status % 128

def WIFSIGNALED (status : Nat) : Bool :=
  decide (1 ≤ status % 128 ∧ status % 128 ≤ 126)

structure WaitInterp where
  exitCode : Int
  success : Bool
  errorMessage : String
  deriving Repr, DecidableEq

/-- the interpretation of the waitpid status in SandboxManager::run, given
that waitpid returned the child pid: the result fields start at
exitCode = -1, success = false; WIFEXITED sets the exit code and
success = (exitCode == 0); WIFSIGNALED sets the negated signal number and
the error message; any other status leaves the initial values. -/
def interpretWaitStatus (status : Nat) : WaitInterp :=
  let base : WaitInterp := { exitCode := -1, success := false, errorMessage := "" }
  if WIFEXITED status then
    { base with
        exitCode := (WEXITSTATUS status : Int)
        success := WEXITSTATUS status = 0 }
  else if WIFSIGNALED status then
    { base with
        exitCode := -(WTERMSIG status : Int)
        success := false
        errorMessage := "Killed by signal: " ++ toString (WTERMSIG status) }
  else base

/-! ### Module registration (SandboxManager::registerModule)

modules_ is a std::map from name to module; `mapInsert` is the
insert-or-assign of `modules_[name] = std::move(module)` on the sorted
association list that std::map maintains.  A module value is abstracted to
its name and an identity. -/

structure RegModule where
  name : String
  id : Nat
  deriving Repr, DecidableEq

def mapInsert (m : List (String × Nat)) (k : String) (v : Nat) : List (String × Nat) :=
  match m with
  | [] => [(k, v)]
  | (k', v') :: rest =>
    if k = k' then (k, v) :: rest
    else if k < k' then (k, v) :: (k', v') :: rest
    else (k', v') :: mapInsert rest k v

/-- SandboxManager::registerModule: a null module logs an error and returns
false; otherwise the module is stored under its name (replacing any module
already registered under that name, with a warning) and the call returns
true. -/
def registerModule (module : Option RegModule) (modules : List (String × Nat)) :
    Bool × List (String × Nat) :=
  match module with
  | none => (false, modules)
  | some m => (true, mapInsert modules m.name m.id)

/-- the keys of a registry in std::map order must be strictly increasing;
this is the invariant std::map maintains (the comparison is stated over
the character lists, which coincides with the String order). -/
def sortedKeys : List (String × Nat) → Bool
  | [] => true
  | [_] => true
  | a :: b :: rest => decide (a.1.toList < b.1.toList) && sortedKeys (b :: rest)

/-! ### Property-level helpers -/

/-- the module names of the applyChild hook markers of a trace, in order. -/
def hookOrder (tr : List Event) : List String :=
  tr.filterMap (fun e => match e with | .applyHook n => some n | _ => none)

/-- whether a trace contains any cloneChild event. -/
def hasCloneEvent (tr : List Event) : Bool :=
  tr.any (fun e => match e with | .cloneChild _ => true | _ => false)

/-- whether a trace contains any dup2 event. -/
def hasDup2Event (tr : List Event) : Bool :=
  tr.any (fun e => match e with | .dup2Call _ _ => true | _ => false)

/-- every event produced by initializeModules is an initialize-hook event. -/
theorem initEvents_only_init (initOk : String → Bool) :
    ∀ (l : List String), ∀ e ∈ (initializeModulesEvents initOk l).1, ∃ n, e = Event.initHook n
  | [] => by simp [initializeModulesEvents]
  | n :: rest => by
    intro e he
    unfold initializeModulesEvents at he
    by_cases h : initOk n
    · simp [h] at he
      rcases he with rfl | he
      · exact ⟨n, rfl⟩
      · exact initEvents_only_init initOk rest e he
    · simp [h] at he
      exact ⟨n, he⟩

/-- looking up the inserted key after a map insert yields the new value. -/
theorem mapInsert_lookup (r : List (String × Nat)) (k : String) (v : Nat) :
    List.lookup k (mapInsert r k v) = some v := by
  induction r with
  | nil => simp [mapInsert, List.lookup]
  | cons kv rest ih =>
    obtain ⟨k', v'⟩ := kv
    by_cases h : k = k'
    · simp [mapInsert, h, List.lookup]
    · by_cases h2 : k < k'
      · simp [mapInsert, h, h2, List.lookup]
      · have hbeq : (k == k') = false := beq_eq_false_iff_ne.mpr h
        simp [mapInsert, h, h2, List.lookup, hbeq, ih]

/-- the tail of a sorted registry is sorted. -/
theorem sortedKeys_tail (a : String × Nat) (rest : List (String × Nat))
    (h : sortedKeys (a :: rest) = true) : sortedKeys rest = true := by
  cases rest with
  | nil => rfl
  | cons b r2 =>
    unfold sortedKeys at h
    exact (Bool.and_eq_true_iff.mp h).2

/-- in a sorted registry the head key is below every later key. -/
theorem sortedKeys_all_gt (a : String × Nat) (rest : List (String × Nat))
    (h : sortedKeys (a :: rest) = true) : ∀ p ∈ rest, a.1 < p.1 := by
  induction rest generalizing a with
  | nil => intro p hp; simp at hp
  | cons b r2 ih =>
    intro p hp
    unfold sortedKeys at h
    obtain ⟨hab, hrest⟩ := Bool.and_eq_true_iff.mp h
    have hab' : a.1 < b.1 := String.lt_iff_toList_lt.mpr (of_decide_eq_true hab)
    rcases List.mem_cons.mp hp with rfl | hp2
    · exact hab'
    · exact lt_trans hab' (ih b hrest p hp2)

/-- inserting a key already present in a sorted registry keeps its size. -/
theorem mapInsert_length (r : List (String × Nat)) (k : String) (v : Nat)
    (hs : sortedKeys r = true) (hm : k ∈ r.map Prod.fst) :
    (mapInsert r k v).length = r.length := by
  induction r with
  | nil => simp at hm
  | cons kv rest ih =>
    obtain ⟨k', v'⟩ := kv
    by_cases h : k = k'
    · simp [mapInsert, h]
    · have hk : k ∈ rest.map Prod.fst := by
        simp at hm
        rcases hm with h1 | h1
        · exact absurd h1 h
        · simpa using h1
      have hgt : k' < k := by
        obtain ⟨p, hp, hpk⟩ := List.mem_map.mp hk
        have := sortedKeys_all_gt (k', v') rest hs p hp
        rw [hpk] at this
        exact this
      have h2 : ¬ k < k' := fun hlt => absurd hgt (lt_asymm hlt)
      simp [mapInsert, h, h2]
      exact ih (sortedKeys_tail _ _ hs) hk

/-- hookOrder distributes over list concatenation. -/
theorem hookOrder_append (a b : List Event) :
    hookOrder (a ++ b) = hookOrder a ++ hookOrder b := by
  simp [hookOrder]

/-- the Namespaces module's child events contain no hook markers. -/
theorem hookOrder_namespacesApplyChild (cfg : SandboxConfiguration) :
    hookOrder (namespacesApplyChild cfg) = [] := by
  unfold namespacesApplyChild applyUserNamespace hookOrder
  split_ifs <;> rfl

/-- the Caps module's child events contain no hook markers. -/
theorem hookOrder_capsApplyChild (cfg : SandboxConfiguration) :
    hookOrder (capsApplyChild cfg) = [] := by
  unfold capsApplyChild hookOrder
  simp [List.filterMap_cons, List.filterMap_map]

/-- the RootFS module's child events contain no hook markers. -/
theorem hookOrder_rootfsApplyChild (isDir : String → Bool) (cfg : SandboxConfiguration) :
    hookOrder (rootfsApplyChild isDir cfg) = [] := by
  unfold rootfsApplyChild doPivotRoot rootfsSetupMounts hookOrder
  simp [List.filterMap_append, List.filterMap_map, List.filterMap_cons]

/-- a single bind mount's events contain no hook markers. -/
theorem hookOrder_applyBindMount (fsExists : String → Bool) (bm : BindMount) :
    hookOrder (applyBindMount fsExists bm) = [] := by
  unfold applyBindMount ensureMountTarget hookOrder
  split_ifs <;> rfl

/-- the Mounts module's child events contain no hook markers. -/
theorem hookOrder_mountsApplyChild (fsExists : String → Bool) (cfg : SandboxConfiguration) :
    hookOrder (mountsApplyChild fsExists cfg) = [] := by
  unfold mountsApplyChild
  induction cfg.mounts.bind_mounts with
  | nil => rfl
  | cons bm rest ih =>
    simp only [List.map_cons, List.flatten_cons]
    rw [hookOrder_append, hookOrder_applyBindMount, ih]
    rfl

/-- the Seccomp module's child events contain no hook markers. -/
theorem hookOrder_seccompApplyChild (cfg : SandboxConfiguration) :
    hookOrder (seccompApplyChild cfg) = [] := by
  unfold seccompApplyChild hookOrder
  split_ifs <;> rfl

/-- no module's applyChild events contain a hook marker: the markers come
only from the engine's executeChild loop. -/
theorem hookOrder_applyChildEvents (isDir fsExists : String → Bool)
    (cfg : SandboxConfiguration) (n : String) :
    hookOrder (applyChildEvents isDir fsExists cfg n) = [] := by
  unfold applyChildEvents
  split_ifs
  · exact hookOrder_namespacesApplyChild cfg
  · exact hookOrder_rootfsApplyChild isDir cfg
  · exact hookOrder_mountsApplyChild fsExists cfg
  · exact hookOrder_seccompApplyChild cfg
  · exact hookOrder_capsApplyChild cfg
  · rfl

/-- the hook markers of the executeChild module loop are exactly the
execution order, for every configuration and filesystem oracle. -/
theorem hookOrder_hookBlocks (isDir fsExists : String → Bool) (cfg : SandboxConfiguration) :
    ∀ (order : List String),
      hookOrder ((order.map
        (fun n => Event.applyHook n :: applyChildEvents isDir fsExists cfg n)).flatten) = order
  | [] => rfl
  | n :: rest => by
    simp only [List.map_cons, List.flatten_cons, List.cons_append]
    have h1 : hookOrder (Event.applyHook n ::
        (applyChildEvents isDir fsExists cfg n ++
         ((rest.map (fun n => Event.applyHook n :: applyChildEvents isDir fsExists cfg n)).flatten))) =
        n :: hookOrder (applyChildEvents isDir fsExists cfg n ++
         ((rest.map (fun n => Event.applyHook n :: applyChildEvents isDir fsExists cfg n)).flatten)) := by
      simp [hookOrder]
    rw [h1, hookOrder_append, hookOrder_applyChildEvents,
        hookOrder_hookBlocks isDir fsExists cfg rest]
    rfl

/-- the execution order resolved for the default module registration:
std::map (lexicographic name) order with rootfs pulled before its
dependent mounts. -/
theorem default_execution_order :
    resolveDependencies defaultModules =
      ["ai-agent", "caps", "cgroups", "rootfs", "mounts", "namespaces", "seccomp"] := by decide

/-! ### Concrete scenarios used by the claims -/

/-- the scenario of spec section 8 concrete test 6: the Cgroups module
followed by an always-failing dummy module, in registry order. -/
def cgroupsThenFailingModules : List ModuleInfo :=
  [{ name := "cgroups", deps := [] }, { name := "dummy", deps := [] }]

/-- every module's initialize succeeds except the dummy module's. -/
def dummyFailsInitOk : String → Bool := fun n => !(n = "dummy")

/-- the default configuration with the given seccomp policy selector (the
default configuration has an empty seccomp_profile_path). -/
def policyCfg (policy : String) : SandboxConfiguration :=
  { createDefaultConfig with
      security := { createDefaultConfig.security with seccomp_policy := policy } }

/-! ### Claims -/

/-- C1 (counterexample): in the child trace of a default run the
apply_child hooks do NOT run in the order Namespaces, RootFS, Mounts,
Seccomp, Caps claimed by the spec: that order is not a subsequence of the
actual hook order (caps runs before seccomp, and namespaces runs after
mounts). -/
theorem C1_spec_order_fails :
    ¬ List.Sublist ["namespaces", "rootfs", "mounts", "seccomp", "caps"]
        (hookOrder defaultChildTrace) := by decide

/-- C1 (amended): for every run with the default module registration —
every configuration and every filesystem oracle — the apply_child hooks of
the child run in the std::map (lexicographic name) order refined by the
one declared dependency (mounts after rootfs): ai-agent, caps, cgroups,
rootfs, mounts, namespaces, seccomp; the execve of the configured user
command is the last event of the child trace, so every hook precedes it.
In particular RootFS precedes Mounts, but Caps precedes Seccomp and
Namespaces follows Mounts, contrary to the spec order. -/
theorem C1_actual_child_order (isDir fsExists : String → Bool) (cfg : SandboxConfiguration) :
    hookOrder (childTrace isDir fsExists cfg defaultModules) =
      ["ai-agent", "caps", "cgroups", "rootfs", "mounts", "namespaces", "seccomp"] ∧
    (childTrace isDir fsExists cfg defaultModules).getLast? =
      some (Event.execveCall cfg.sandbox.command) := by
  constructor
  · unfold childTrace executeChildEvents
    rw [default_execution_order]
    have h2 : ∀ X : List Event,
        hookOrder (Event.closePipeRead :: Event.prctlName cfg.sandbox.name :: X) =
          hookOrder X := by
      intro X
      simp [hookOrder]
    rw [h2, hookOrder_append, hookOrder_hookBlocks]
    simp [hookOrder, specExecuteStep]
  · unfold childTrace executeChildEvents specExecuteStep
    rw [← List.cons_append, ← List.cons_append]
    exact List.getLast?_concat _

/-- C2 (code bug): SandboxManager::run creates the child with fork()
(SandboxManager.h line 316), not with clone: the run trace contains the
fork event and no cloneChild event at all, although Syscall::cloneWithFlags
and the per-namespace clone flags exist in the sources.  The child
therefore starts in no new namespaces, contrary to the claim and to the
repository's own module documentation. -/
theorem C2_fork_not_clone :
    Event.forkChild ∈ runTrace defaultModules (fun _ => true) ∧
    hasCloneEvent (runTrace defaultModules (fun _ => true)) = false := by decide

/-- C3 (code bug): in the child trace of a default run (seccomp enabled
with the "default" policy) the seccomp filter is installed via
prctl(PR_SET_SECCOMP, SECCOMP_MODE_FILTER, blob), but no
prctl(PR_SET_NO_NEW_PRIVS, 1) call occurs anywhere in the trace (the
sources contain no PR_SET_NO_NEW_PRIVS call at all), so NO_NEW_PRIVS is
not set before the install as the claim requires. -/
theorem C3_no_new_privs_missing :
    Event.prctlCall PR_SET_SECCOMP SECCOMP_MODE_FILTER ∈ defaultChildTrace ∧
    Event.prctlCall PR_SET_NO_NEW_PRIVS 1 ∉ defaultChildTrace := by decide

/-- C4 (counterexample): in the run where the Cgroups module initializes
and a dummy module's initialize then fails, SandboxManager::run returns
without ever invoking Cgroups' cleanup (run returns the error result
directly at the initializeModules failure, before the cleanupModules call
of the normal path), contradicting the claim that cleanup is invoked
before run returns. -/
theorem C4_no_cleanup_before_return :
    Event.cleanupHook "cgroups" ∉ runTrace cgroupsThenFailingModules dummyFailsInitOk := by
  decide

/-- C4 (amended): for every module list and every initialize oracle, if
some initialize fails then the child is never forked AND no module's
cleanup is invoked before run returns: the run trace consists of
initialize-hook events only.  Cleanup in reverse order happens only when
cleanupModules is called later (from the destructor), not before run
returns. -/
theorem C4_init_failure_no_fork_no_cleanup
    (modules : List ModuleInfo) (initOk : String → Bool)
    (h : (initializeModulesEvents initOk (resolveDependencies modules)).2 = false) :
    Event.forkChild ∉ runTrace modules initOk ∧
    ∀ n, Event.cleanupHook n ∉ runTrace modules initOk := by
  have hrun : runTrace modules initOk =
      (initializeModulesEvents initOk (resolveDependencies modules)).1 := by
    unfold runTrace
    simp [h]
  constructor
  · rw [hrun]
    intro hmem
    obtain ⟨n, hn⟩ := initEvents_only_init initOk _ _ hmem
    exact Event.noConfusion hn
  · intro n
    rw [hrun]
    intro hmem
    obtain ⟨n', hn⟩ := initEvents_only_init initOk _ _ hmem
    exact Event.noConfusion hn

/-- C4 (witness): the amended theorem applied to the concrete
Cgroups-then-failing-dummy scenario. -/
theorem C4_init_failure_witness :
    (initializeModulesEvents dummyFailsInitOk
      (resolveDependencies cgroupsThenFailingModules)).2 = false ∧
    Event.forkChild ∉ runTrace cgroupsThenFailingModules dummyFailsInitOk ∧
    ∀ n, Event.cleanupHook n ∉ runTrace cgroupsThenFailingModules dummyFailsInitOk :=
  ⟨by decide,
   (C4_init_failure_no_fork_no_cleanup cgroupsThenFailingModules dummyFailsInitOk (by decide)).1,
   (C4_init_failure_no_fork_no_cleanup cgroupsThenFailingModules dummyFailsInitOk (by decide)).2⟩

/-- C5 (counterexample): the rootfs sequence claimed by the spec — bind
mount, an MS_PRIVATE|MS_REC marking mount, pivot_root into
rootfs/.oldroot, chdir, umount2 of /.oldroot — is not a subsequence of the
default child trace: the code performs no MS_PRIVATE mount at all and uses
the directory name "oldroot", not ".oldroot". -/
theorem C5_spec_pivot_sequence_fails :
    ¬ List.Sublist
      [Event.mountCall "/var/lib/sandbox/rootfs/ubuntu_focal"
         "/var/lib/sandbox/rootfs/ubuntu_focal" "" (MS_BIND + MS_REC),
       Event.mountCall "" "/var/lib/sandbox/rootfs/ubuntu_focal" "" (MS_PRIVATE + MS_REC),
       Event.pivotRootCall "/var/lib/sandbox/rootfs/ubuntu_focal"
         "/var/lib/sandbox/rootfs/ubuntu_focal/.oldroot",
       Event.chdirCall "/",
       Event.umountCall "/.oldroot" MNT_DETACH]
      defaultChildTrace := by decide

/-- C5 (amended): for every filesystem oracle and configuration, the
rootfs child setup contains, in this order: the recursive bind mount of
rootfs_path onto itself, pivot_root(rootfs_path, rootfs_path/oldroot),
chdir("/"), and umount2("/oldroot", MNT_DETACH); and no mount call in the
rootfs setup carries the MS_PRIVATE flag (the propagation-marking step of
the spec is absent). -/
theorem C5_actual_pivot_sequence (isDir : String → Bool) (cfg : SandboxConfiguration) :
    List.Sublist
      [Event.mountCall cfg.sandbox.rootfs_path cfg.sandbox.rootfs_path "" (MS_BIND + MS_REC),
       Event.pivotRootCall cfg.sandbox.rootfs_path (cfg.sandbox.rootfs_path ++ "/oldroot"),
       Event.chdirCall "/",
       Event.umountCall "/oldroot" MNT_DETACH]
      (rootfsApplyChild isDir cfg) ∧
    (∀ s t f fl, Event.mountCall s t f fl ∈ rootfsApplyChild isDir cfg →
      fl / MS_PRIVATE % 2 = 0) := by
  constructor
  · unfold rootfsApplyChild doPivotRoot
    simp only [List.append_assoc, List.cons_append, List.nil_append, List.singleton_append]
    refine List.Sublist.trans ?_ (List.sublist_append_right _ _)
    exact List.Sublist.cons _ (List.Sublist.cons₂ _ (List.Sublist.cons₂ _ (List.Sublist.cons₂ _
      (List.Sublist.cons₂ _ (List.nil_sublist _)))))
  · intro s t f fl hmem
    unfold rootfsApplyChild doPivotRoot rootfsSetupMounts at hmem
    simp [List.mem_append, List.mem_map, List.mem_filter] at hmem
    rcases hmem with ⟨-, -, -, rfl⟩ | ⟨-, -, -, rfl⟩ | ⟨-, -, -, rfl⟩ | ⟨-, -, -, rfl⟩ <;> decide

/-- C6 (code bug): in the child branch of run the read end of the pipe is
closed, but no dup2 call occurs anywhere in the child trace: stdout and
stderr are never redirected to the pipe's write end before exec, so the
captured-stdout field cannot carry the command's output. -/
theorem C6_no_stdout_redirect :
    Event.closePipeRead ∈ defaultChildTrace ∧
    hasDup2Event defaultChildTrace = false := by decide

/-- C7 (counterexample): with seccomp_policy = "off" (and an empty profile
path) the seccomp module is NOT disabled: Seccomp::initialize sets
enabled_ from the emptiness of the selector string, so "off" leaves the
module enabled and the child still installs a filter via PR_SET_SECCOMP,
contradicting the claim that "off" disables the module entirely. -/
theorem C7_off_not_disabled :
    (seccompInitModule (policyCfg "off")).enabled = true ∧
    Event.prctlCall PR_SET_SECCOMP SECCOMP_MODE_FILTER ∈
      seccompApplyChild (policyCfg "off") := by decide

/-- C7 (amended): for every configuration the module is disabled exactly
when both the policy selector and the profile path are empty strings, and
the child attempts no installation exactly when the module is disabled;
the selector-to-action mapping holds for the four recognised selectors
(default→ERRNO, strict→KILL, log→LOG, allow→ALLOW), while "off" leaves
the module enabled with the constructor-default ERRNO action and the
child still installs the filter, and an empty selector (with empty
profile path) disables it. -/
theorem C7_policy_actions (cfg : SandboxConfiguration) :
    ((seccompInitModule cfg).enabled = false ↔
      (cfg.security.seccomp_policy = "" ∧ cfg.security.seccomp_profile_path = "")) ∧
    (seccompApplyChild cfg = [] ↔ (seccompInitModule cfg).enabled = false) ∧
    ((seccompInitModule (policyCfg "default")).defaultAction = SECCOMP_RET_ERRNO ∧
     (seccompInitModule (policyCfg "strict")).defaultAction = SECCOMP_RET_KILL ∧
     (seccompInitModule (policyCfg "log")).defaultAction = SECCOMP_RET_LOG ∧
     (seccompInitModule (policyCfg "allow")).defaultAction = SECCOMP_RET_ALLOW ∧
     (seccompInitModule (policyCfg "off")).enabled = true ∧
     (seccompInitModule (policyCfg "off")).defaultAction = SECCOMP_RET_ERRNO ∧
     seccompApplyChild (policyCfg "off") =
       [Event.prctlCall PR_SET_SECCOMP SECCOMP_MODE_FILTER] ∧
     (seccompInitModule (policyCfg "")).enabled = false ∧
     seccompApplyChild (policyCfg "") = []) := by
  refine ⟨?_, ?_, by decide⟩
  · unfold seccompInitModule
    by_cases hp : cfg.security.seccomp_policy = "" <;>
      by_cases hpp : cfg.security.seccomp_profile_path = "" <;> simp [hp, hpp]
  · unfold seccompApplyChild seccompInitModule
    by_cases hp : cfg.security.seccomp_policy = "" <;>
      by_cases hpp : cfg.security.seccomp_profile_path = "" <;> simp [hp, hpp]

/-- C8 (counterexample): the default configuration has enable_swap = false,
yet Cgroups::setMemoryLimits performs no memory.swap.max write at all for
it — the write the claim requires for enable_swap=false is absent. -/
theorem C8_no_swap_write_when_disabled :
    createDefaultConfig.resources.enable_swap = false ∧
    ("memory.swap.max", "0") ∉ setMemoryLimits createDefaultConfig := by decide

/-- C8 (amended): for every configuration, the value "0" is written to
memory.swap.max during initialize exactly when enable_swap is TRUE — the
guard in Cgroups::setMemoryLimits is `if (config.resources.enable_swap)`,
the inverse of the condition stated by the spec. -/
theorem C8_swap_write_iff_enable_swap (cfg : SandboxConfiguration) :
    ("memory.swap.max", "0") ∈ setMemoryLimits cfg ↔
      cfg.resources.enable_swap = true := by
  cases h : cfg.resources.enable_swap <;> simp [setMemoryLimits, h]

/-- C9 (confirmed): for every wait status (given waitpid returned the
child pid), the result's success flag is true exactly when the child
exited normally with status 0, and a signal death gives success = false
with exitCode the negated signal number. -/
theorem C9_wait_status_interpretation (status : Nat) :
    ((interpretWaitStatus status).success = true ↔
      (WIFEXITED status = true ∧ WEXITSTATUS status = 0)) ∧
    (WIFSIGNALED status = true →
      (interpretWaitStatus status).exitCode = -(WTERMSIG status : Int) ∧
      (interpretWaitStatus status).success = false) := by
  constructor
  · unfold interpretWaitStatus
    by_cases h : WIFEXITED status = true
    · simp [h]
    · by_cases h2 : WIFSIGNALED status = true
      · simp [h, h2]
      · simp [h, h2]
  · intro hs
    unfold interpretWaitStatus
    have hx : ¬ (WIFEXITED status = true) := by
      unfold WIFEXITED
      unfold WIFSIGNALED at hs
      simp at hs ⊢
      omega
    simp [hx, hs]

/-- C9 (witness): the interpretation at the concrete statuses 0 (normal
exit 0) and 9 (death by SIGKILL), via the theorem. -/
theorem C9_wait_status_witness :
    (interpretWaitStatus 0).success = true ∧ (interpretWaitStatus 9).exitCode = -9 :=
  ⟨((C9_wait_status_interpretation 0).1).mpr (by decide),
   ((C9_wait_status_interpretation 9).2 (by decide)).1⟩

/-- C10 (confirmed): registerModule returns false for a null module;
registering a non-null module always returns true, and when the name is
already present in the (sorted, as std::map keeps it) registry the earlier
module is replaced: the registry size is unchanged and the name now maps
to the new module. -/
theorem C10_registerModule_replaces (m : RegModule) (r : List (String × Nat))
    (hs : sortedKeys r = true) (hm : m.name ∈ r.map Prod.fst) :
    (registerModule none r).1 = false ∧
    (registerModule (some m) r).1 = true ∧
    (registerModule (some m) r).2.length = r.length ∧
    List.lookup m.name (registerModule (some m) r).2 = some m.id := by
  refine ⟨rfl, rfl, ?_, ?_⟩
  · exact mapInsert_length r m.name m.id hs hm
  · exact mapInsert_lookup r m.name m.id

/-- C10 (witness): re-registering a module named cgroups over a registry
that already holds one, via the theorem. -/
theorem C10_registerModule_witness :
    sortedKeys [("cgroups", 1), ("mounts", 2)] = true ∧
    ((registerModule none [("cgroups", 1), ("mounts", 2)]).1 = false ∧
     (registerModule (some { name := "cgroups", id := 7 }) [("cgroups", 1), ("mounts", 2)]).1 = true ∧
     (registerModule (some { name := "cgroups", id := 7 }) [("cgroups", 1), ("mounts", 2)]).2.length =
       [("cgroups", 1), ("mounts", 2)].length ∧
     List.lookup "cgroups"
       (registerModule (some { name := "cgroups", id := 7 }) [("cgroups", 1), ("mounts", 2)]).2 =
       some 7) :=
  ⟨by decide,
   C10_registerModule_replaces { name := "cgroups", id := 7 }
     [("cgroups", 1), ("mounts", 2)] (by decide) (by decide)⟩

end SandboxModel
